import Mathlib

/-!
Shallow embedding of `margaritashotgun/repository.py` (the lime-compiler
repository client) and verification of its specification claims.

Byte strings are modelled as `List Nat`; the external collaborators
(HTTP transport via `requests.get`, SHA-256 via `hashlib`, gzip via
`gzip.GzipFile`, and the `untangle` XML library) are fields of an
environment record, so every theorem quantifies over their behaviour.
Stateful behaviour (the filesystem sink) and the observable sequence of
external operations are made explicit by a writer/state/except monad `M`.
-/

set_option autoImplicit false

namespace Margarita

/-- Raw byte strings (Python `str` payloads in the source). -/
abbrev Bytes := List Nat

/-- Result of `requests.get`: status code and the payload bytes
(`req.content` / `req.raw.read()`). -/
structure HTTPResponse where
  status : Nat
  content : Bytes
  deriving DecidableEq, Repr

/-- Low-level Python exceptions that can be raised while extracting fields
from an untangle document (`AttributeError` for a missing child element or
attribute, `ValueError` from `int(...)`, plus the XML parse failure raised
by `untangle.parse` itself). These are the exceptions the `try` blocks in
`parse_metadata` and `parse_manifest` catch. -/
inductive PyExc where
  | attributeError (field : String)
  | valueError (s : String)
  | parseError
  deriving DecidableEq, Repr

/-- The exceptions that can escape the `Repository` methods.
`repositoryError` is `RepositoryError(path, message)` with a plain string
message; `repositoryErrorExc` is `RepositoryError(path, e)` wrapping a
caught exception (the `parse_metadata` except-branch); `keyError` is an
uncaught Python `KeyError` from a dict lookup; `nameError` is Python's
`UnboundLocalError`/`NameError` from referencing an unassigned local;
`ioError` is the gzip decode failure. `manifestTypeNotFound` models the
spec's `ManifestTypeNotFoundError` taxonomy entry (the exception classes
live in `margaritashotgun.exceptions`, outside the given source); the
embedded code never constructs it. -/
inductive PyErr where
  | repositoryError (path : String) (message : String)
  | repositoryErrorExc (path : String) (cause : PyExc)
  | kernelModuleNotFound (version : String) (url : String)
  | keyError (key : String)
  | nameError (name : String)
  | ioError
  | manifestTypeNotFound (manifestType : String)
  deriving DecidableEq, Repr

/-- Observable external operations, recorded in order of occurrence. -/
inductive Event where
  | httpGet (path : String)
  | verifyChecksum (expected : String) (label : String)
  | gunzipCall
  | untangleCall
  | fileWrite (name : String)
  | fileRead (name : String)
  deriving DecidableEq, Repr

/-- The local filesystem sink: filename to content. -/
structure FS where
  files : List (String × Bytes)
  deriving DecidableEq, Repr

/-- Python dict assignment `d[k] = v`: replace the binding in place when the
key is present, append otherwise. -/
def dictSet {α : Type} : List (String × α) → String → α → List (String × α)
  | [], k, v => [(k, v)]
  | (k', v') :: rest, k, v =>
      if k' = k then (k, v) :: rest else (k', v') :: dictSet rest k v

/-- Python dict lookup `d[k]` (as an option). -/
def dictGet? {α : Type} : List (String × α) → String → Option α
  | [], _ => none
  | (k', v) :: rest, k => if k' = k then some v else dictGet? rest k

/-- Python `str.rstrip(chars)`: remove all trailing characters that are
members of the character set `chars` (NOT suffix removal). -/
def pyRstrip (s : String) (chars : String) : String :=
  String.mk ((s.data.reverse.dropWhile (fun c => chars.data.contains c)).reverse)

/-- One `data` element of the untangle view of `repodata/repomd.xml`.
Each field is the raw string the code reads (`None` when the child element
or attribute is absent, in which case access raises). -/
structure DataElem where
  typeAttr : Option String
  checksum : Option String
  open_checksum : Option String
  location : Option String
  timestamp : Option String
  size : Option String
  open_size : Option String
  deriving DecidableEq, Repr

/-- The untangle object `untangle.parse(metadata_xml).metadata`:
`revision.cdata`, and `data` which is a single element or a list of
elements depending on the document (`none` when the child is absent). -/
structure IndexDoc where
  revision : Option String
  data : Option (Sum DataElem (List DataElem))
  deriving DecidableEq, Repr

/-- One module element of the untangle view of a manifest document. -/
structure ModuleElem where
  typeAttr : Option String
  name : Option String
  arch : Option String
  checksum : Option String
  version : Option String
  packager : Option String
  location : Option String
  signature : Option String
  platform : Option String
  deriving DecidableEq, Repr

/-- The external collaborators of the client. `sha256` is
`hashlib.sha256(data).hexdigest()`; `httpGet` is `requests.get`;
`gunzip` is `gzip.GzipFile(fileobj=StringIO(raw)).read()` (`none` on a
malformed stream); `untangleIndex` and `untangleManifest` are
`untangle.parse` followed by the root-element access (`.metadata`,
`.modules.children`), `none` when parsing or the root access raises;
`datestamp` is `datetime.utcfromtimestamp(int(time.time())).isoformat()`. -/
structure Env where
  sha256 : Bytes → String
  httpGet : String → HTTPResponse
  gunzip : Bytes → Option Bytes
  untangleIndex : Bytes → Option IndexDoc
  untangleManifest : Bytes → Option (List ModuleElem)
  datestamp : String

/-- Parsed manifest descriptor (the per-manifest dict built by
`parse_metadata`; `datetime.fromtimestamp` is kept as the integer). -/
structure ManifestDescriptor where
  type' : String
  checksum : String
  open_checksum : String
  location : String
  timestamp : Int
  size : Int
  open_size : Int
  deriving DecidableEq, Repr

/-- The dict returned by `parse_metadata`. -/
structure Metadata where
  revision : String
  manifests : List (String × ManifestDescriptor)
  deriving DecidableEq, Repr

/-- The per-module dict built by `parse_manifest`. -/
structure ModuleRecord where
  type' : String
  name : String
  arch : String
  checksum : String
  version : String
  packager : String
  location : String
  signature : String
  platform : String
  deriving DecidableEq, Repr

/-- The dict returned by `parse_manifest`, keyed by kernel version. -/
abbrev ManifestTable := List (String × ModuleRecord)

/-- Computations over the filesystem state that can raise a Python
exception and record the trace of external operations they perform. -/
def M (α : Type) : Type := FS → Except PyErr α × FS × List Event

namespace M

def pure' {α : Type} (a : α) : M α := fun fs => (Except.ok a, fs, [])

def bind' {α β : Type} (x : M α) (f : α → M β) : M β := fun fs =>
  match x fs with
  | (Except.ok a, fs₁, tr) =>
      ((f a fs₁).1, (f a fs₁).2.1, tr ++ (f a fs₁).2.2)
  | (Except.error e, fs₁, tr) => (Except.error e, fs₁, tr)

instance instMonadM : Monad M where
  pure := pure'
  bind := bind'

theorem bind_eq {α β : Type} (x : M α) (f : α → M β) : x >>= f = bind' x f := rfl

theorem pure_eq {α : Type} (a : α) : (pure a : M α) = pure' a := rfl

end M

/-- Raise a Python exception. -/
def throwM {α : Type} (e : PyErr) : M α := fun fs => (Except.error e, fs, [])

/-- Record an observable event. -/
def emit (ev : Event) : M Unit := fun fs => (Except.ok (), fs, [ev])

/-- Perform `requests.get`. -/
def httpGetM (env : Env) (path : String) : M HTTPResponse := fun fs =>
  (Except.ok (env.httpGet path), fs, [Event.httpGet path])

/-- Write a file to the sink (`open(filename, 'wb')` + `write`). -/
def writeFileM (name : String) (b : Bytes) : M Unit := fun fs =>
  (Except.ok (), ⟨dictSet fs.files name b⟩, [Event.fileWrite name])

/-- Read a file back from the sink (`open(filename, 'rb')` + `read`). -/
def readFileM (name : String) : M Bytes := fun fs =>
  match dictGet? fs.files name with
  | some b => (Except.ok b, fs, [Event.fileRead name])
  | none => (Except.error PyErr.ioError, fs, [Event.fileRead name])

/-- The `Repository` object state set up by `__init__`. -/
structure Repository where
  url : String
  gpg_verify : Bool
  metadata_dir : String
  metadata_file : String

/-- `Repository.__init__(url, gpg_verify)`. -/
def Repository.init (url : String) (gpg_verify : Bool) : Repository :=
  { url := pyRstrip url "/"
    gpg_verify := gpg_verify
    metadata_dir := "repodata"
    metadata_file := "repomd.xml" }

/-- Python attribute/field access on an untangle element: returns the value
or raises when the element/attribute is absent. -/
def pyAttr {α : Type} (field : String) : Option α → Except PyExc α
  | some v => Except.ok v
  | none => Except.error (PyExc.attributeError field)

/-- Accumulate decimal digits; `none` when a non-digit occurs or no digit
was seen. -/
def digitsVal : List Char → Option Nat → Option Nat
  | [], acc => acc
  | c :: rest, acc =>
      if 48 ≤ c.toNat ∧ c.toNat ≤ 57 then
        digitsVal rest (some (acc.getD 0 * 10 + (c.toNat - 48)))
      else none

/-- Python `int(s)`: an optional sign followed by decimal digits, raising
`ValueError` otherwise. -/
def pyInt (s : String) : Except PyExc Int :=
  match s.data with
  | '-' :: rest =>
      match digitsVal rest none with
      | some n => Except.ok (-(n : Int))
      | none => Except.error (PyExc.valueError s)
  | l =>
      match digitsVal l none with
      | some n => Except.ok (n : Int)
      | none => Except.error (PyExc.valueError s)

/-- The loop body of `parse_metadata`: build one manifest dict from one
`data` element, returning the key (`manifest['type']`) and the dict. Field
accesses happen in source order. -/
def parseDataElem (manifest : DataElem) : Except PyExc (String × ManifestDescriptor) := do
  let t ← pyAttr "type" manifest.typeAttr
  let checksum ← pyAttr "checksum" manifest.checksum
  let open_checksum ← pyAttr "open_checksum" manifest.open_checksum
  let location ← pyAttr "location" manifest.location
  let tsRaw ← pyAttr "timestamp" manifest.timestamp
  let ts ← pyInt tsRaw
  let szRaw ← pyAttr "size" manifest.size
  let sz ← pyInt szRaw
  let oszRaw ← pyAttr "open_size" manifest.open_size
  let osz ← pyInt oszRaw
  Except.ok (t, { type' := t, checksum := checksum, open_checksum := open_checksum
                  location := location, timestamp := ts, size := sz, open_size := osz })

/-- The `for manifest in manifests` loop of `parse_metadata`: the first
raised exception aborts the whole loop and propagates. -/
def manifestsLoop : List DataElem → List (String × ManifestDescriptor) →
    Except PyExc (List (String × ManifestDescriptor))
  | [], acc => Except.ok acc
  | e :: rest, acc => do
      let (k, d) ← parseDataElem e
      manifestsLoop rest (dictSet acc k d)

/-- The body of the `try` block of `parse_metadata`, after `untangle.parse`
has produced the `metadata` object. -/
def parse_index_doc (mdata : IndexDoc) : Except PyExc Metadata := do
  let revision ← pyAttr "revision" mdata.revision
  let d ← pyAttr "data" mdata.data
  let manifests := match d with
                   | Sum.inr l => l
                   | Sum.inl e => [e]
  let ms ← manifestsLoop manifests []
  Except.ok { revision := revision, manifests := ms }

/-- The whole `try` block of `parse_metadata`. -/
def parse_metadata_inner (env : Env) (metadata_xml : Bytes) : Except PyExc Metadata :=
  match env.untangleIndex metadata_xml with
  | none => Except.error PyExc.parseError
  | some mdata => parse_index_doc mdata

/-- `Repository.parse_metadata`: parse `repomd.xml`; any exception in the
`try` block is wrapped into `RepositoryError("{0}/{1}".format(url, metadata_dir), e)`
(the format string ignores its third argument, so the path is just
`url/repodata`). -/
def parse_metadata (repo : Repository) (env : Env) (metadata_xml : Bytes) : M Metadata := do
  emit Event.untangleCall
  match parse_metadata_inner env metadata_xml with
  | Except.ok m => pure m
  | Except.error e =>
      throwM (PyErr.repositoryErrorExc (repo.url ++ "/" ++ repo.metadata_dir) e)

/-- `Repository.get_metadata`: fetch `repomd.xml` (and, when gpg
verification is on, its `.sig` companion) and parse it. -/
def get_metadata (repo : Repository) (env : Env) : M Metadata := do
  let metadata_path := repo.url ++ "/" ++ repo.metadata_dir ++ "/" ++ repo.metadata_file
  let metadata_sig_path :=
    pyRstrip repo.url "/" ++ "/" ++ repo.metadata_dir ++ "/" ++ repo.metadata_file ++ ".sig"
  let req ← httpGetM env metadata_path
  let raw_metadata ←
    if req.status = 200 then pure req.content
    else throwM (PyErr.repositoryError metadata_path
                  ("status code not 200: " ++ toString req.status))
  if repo.gpg_verify then
    let req₂ ← httpGetM env metadata_sig_path
    if req₂.status = 200 then pure ()
    else throwM (PyErr.repositoryError metadata_sig_path
                  ("status code not 200: " ++ toString req₂.status))
  else pure ()
  parse_metadata repo env raw_metadata

/-- `Repository.verify_checksum`: compute the SHA-256 hex digest of `data`
and raise `RepositoryError` when it differs from the expected checksum. -/
def verify_checksum (repo : Repository) (env : Env) (data : Bytes)
    (checksum : String) (filename : String) : M Unit := do
  emit (Event.verifyChecksum checksum filename)
  let calculated := env.sha256 data
  if calculated ≠ checksum then
    throwM (PyErr.repositoryError (repo.url ++ "/" ++ filename)
      ("checksum verification failed, expected " ++ checksum ++ " got " ++ calculated))
  else pure ()

/-- `Repository.unzip_manifest`: gzip-decompress the fetched manifest. -/
def unzip_manifest (env : Env) (raw_manifest : Bytes) : M Bytes := do
  emit Event.gunzipCall
  match env.gunzip raw_manifest with
  | some m => pure m
  | none => throwM PyErr.ioError

/-- The loop body of `parse_manifest`: build one module dict from one
module element, keyed by `mod['version']`. Field accesses in source order. -/
def parseModuleElem (module : ModuleElem) : Except PyExc (String × ModuleRecord) := do
  let t ← pyAttr "type" module.typeAttr
  let nm ← pyAttr "name" module.name
  let arch ← pyAttr "arch" module.arch
  let checksum ← pyAttr "checksum" module.checksum
  let version ← pyAttr "version" module.version
  let packager ← pyAttr "packager" module.packager
  let location ← pyAttr "location" module.location
  let signature ← pyAttr "signature" module.signature
  let platform ← pyAttr "platform" module.platform
  Except.ok (version, { type' := t, name := nm, arch := arch, checksum := checksum
                        version := version, packager := packager, location := location
                        signature := signature, platform := platform })

/-- The `for module in mdata.children` loop of `parse_manifest`: an
exception mid-loop is caught by the surrounding `except`, which prints it
and falls through, so the dict built so far is returned. -/
def modulesLoop : List ModuleElem → ManifestTable → ManifestTable
  | [], acc => acc
  | m :: rest, acc =>
      match parseModuleElem m with
      | Except.ok (v, r) => modulesLoop rest (dictSet acc v r)
      | Except.error _ => acc

/-- The value `parse_manifest` returns: the dict accumulated up to the
first failure (empty when `untangle.parse` itself raises). -/
def parse_manifest_table (env : Env) (manifest_xml : Bytes) : ManifestTable :=
  match env.untangleManifest manifest_xml with
  | none => []
  | some mods => modulesLoop mods []

/-- `Repository.parse_manifest`: parse a manifest document. The `except`
branch only prints the exception, so this never raises. -/
def parse_manifest (_repo : Repository) (env : Env) (manifest_xml : Bytes) : M ManifestTable := do
  emit Event.untangleCall
  pure (parse_manifest_table env manifest_xml)

/-- `Repository.get_manifest`: fetch the manifest named by a descriptor,
verify the compressed and decompressed payloads, and parse. When the GET
status is not 200 the local `gz_manifest` is never assigned, so the
following reference to it raises `UnboundLocalError` (a `NameError`). -/
def get_manifest (repo : Repository) (env : Env) (metadata : ManifestDescriptor) : M ManifestTable := do
  let manifest_path := repo.url ++ "/" ++ metadata.location
  let req ← httpGetM env manifest_path
  let gz_manifest ←
    if req.status = 200 then pure req.content
    else throwM (PyErr.nameError "gz_manifest")
  verify_checksum repo env gz_manifest metadata.checksum metadata.location
  let manifest ← unzip_manifest env gz_manifest
  verify_checksum repo env manifest metadata.open_checksum (pyRstrip metadata.location ".gz")
  parse_manifest repo env manifest

/-- `Repository.verify_module`: re-read the written module file and verify
its checksum (gpg verification is a TODO in the source). -/
def verify_module (repo : Repository) (env : Env) (filename : String)
    (module : ModuleRecord) (_verify_signature : Bool) : M Unit := do
  let module_data ← readFileM filename
  verify_checksum repo env module_data module.checksum module.location

/-- `Repository.fetch_module`: download the module to a timestamped local
file (no status check on this GET) and verify it. -/
def fetch_module (repo : Repository) (env : Env) (module : ModuleRecord) : M String := do
  let filename := "lime-" ++ env.datestamp ++ "-" ++ module.version ++ ".ko"
  let url := repo.url ++ "/" ++ module.location
  let req ← httpGetM env url
  writeFileM filename req.content
  verify_module repo env filename module repo.gpg_verify
  pure filename

/-- `Repository.fetch`: the end-to-end operation. The manifest-type lookup
`metadata['manifests'][manifest_type]` is a bare dict access whose
`KeyError` nothing catches; only the kernel-version lookup is wrapped in
`try`/`except KeyError`. -/
def fetch (repo : Repository) (env : Env) (kernel_version : String) (manifest_type : String) : M String := do
  let metadata ← get_metadata repo env
  let descriptor ←
    match dictGet? metadata.manifests manifest_type with
    | some d => pure d
    | none => throwM (PyErr.keyError manifest_type)
  let manifest ← get_manifest repo env descriptor
  let module ←
    match dictGet? manifest kernel_version with
    | some m => pure m
    | none => throwM (PyErr.kernelModuleNotFound kernel_version repo.url)
  fetch_module repo env module

/-! ### Remaining definitions: decidable equality on results, trace
predicates, and the concrete fixtures the witnesses run on -/

instance exceptDecEq {ε α : Type} [DecidableEq ε] [DecidableEq α] : DecidableEq (Except ε α)
  | Except.ok a, Except.ok b =>
      if h : a = b then isTrue (by rw [h])
      else isFalse (by intro he; cases he; exact h rfl)
  | Except.ok _, Except.error _ => isFalse (by intro h; cases h)
  | Except.error _, Except.ok _ => isFalse (by intro h; cases h)
  | Except.error a, Except.error b =>
      if h : a = b then isTrue (by rw [h])
      else isFalse (by intro he; cases he; exact h rfl)

/-- In the trace `tr`, every occurrence of `b` is preceded by an earlier
occurrence of `a`. -/
@[reducible]
def precedes (a b : Event) (tr : List Event) : Prop :=
  ∀ n : Nat, tr[n]? = some b → ∃ m : Nat, m < n ∧ tr[m]? = some a

/-- The index `data` element the concrete environments serve. -/
def elemOK : DataElem :=
  ⟨some "kernel", some "C1", some "C2", some "kernel.xml.gz",
   some "100", some "10", some "20"⟩

/-- A second `data` element with the same `type` attribute, for the
collision scenario. -/
def elemB : DataElem :=
  ⟨some "kernel", some "D1", some "D2", some "kernel2.xml.gz",
   some "200", some "30", some "40"⟩

/-- The module element the concrete environments serve. -/
def moduleElemOK : ModuleElem :=
  ⟨some "module", some "lime", some "x86_64", some "C3", some "5.4.0-generic",
   some "p", some "lime-5.4.0.ko", some "lime-5.4.0.ko.sig", some "linux"⟩

/-- Parsed form of `elemOK`. -/
def descOK : ManifestDescriptor :=
  ⟨"kernel", "C1", "C2", "kernel.xml.gz", 100, 10, 20⟩

/-- Parsed form of `elemB`. -/
def descB : ManifestDescriptor :=
  ⟨"kernel", "D1", "D2", "kernel2.xml.gz", 200, 30, 40⟩

/-- Parsed form of `moduleElemOK`. -/
def modOK : ModuleRecord :=
  ⟨"module", "lime", "x86_64", "C3", "5.4.0-generic", "p", "lime-5.4.0.ko",
   "lime-5.4.0.ko.sig", "linux"⟩

/-- Metadata as parsed from the index served by `envOK`. -/
def mdOK : Metadata := ⟨"7", [("kernel", descOK)]⟩

/-- A descriptor whose compressed checksum does not match the payload
served by `envOK`. -/
def mdBadCS : ManifestDescriptor :=
  ⟨"kernel", "WRONG", "C2", "kernel.xml.gz", 100, 10, 20⟩

/-- A descriptor whose location the concrete HTTP environment answers
with a 404. -/
def mdMissing : ManifestDescriptor :=
  ⟨"kernel", "C1", "C2", "missing.xml.gz", 100, 10, 20⟩

/-- A module record whose declared checksum does not match the artifact
bytes served by `envOK`. -/
def modBad : ModuleRecord :=
  ⟨"module", "lime", "x86_64", "WRONG", "5.4.0-generic", "p", "lime-5.4.0.ko",
   "lime-5.4.0.ko.sig", "linux"⟩

/-- A fully consistent concrete environment: the index is at `[9]`, the
compressed manifest is `[1, 2]` (digest `C1`), it decompresses to `[3, 4]`
(digest `C2`), and the artifact is `[5, 6]` (digest `C3`). -/
def envOK : Env :=
  { sha256 := fun b =>
      if b = [1, 2] then "C1" else if b = [3, 4] then "C2"
      else if b = [5, 6] then "C3" else "X"
    httpGet := fun p =>
      if p = "u/repodata/repomd.xml" then ⟨200, [9]⟩
      else if p = "u/kernel.xml.gz" then ⟨200, [1, 2]⟩
      else if p = "u/lime-5.4.0.ko" then ⟨200, [5, 6]⟩
      else ⟨404, []⟩
    gunzip := fun b => if b = [1, 2] then some [3, 4] else none
    untangleIndex := fun b =>
      if b = [9] then some ⟨some "7", some (Sum.inl elemOK)⟩ else none
    untangleManifest := fun b =>
      if b = [3, 4] then some [moduleElemOK] else none
    datestamp := "T" }

/-- Same as `envOK` except the index document carries its single `data`
element wrapped in a one-element list. -/
def envListOK : Env :=
  { envOK with
    untangleIndex := fun b =>
      if b = [9] then some ⟨some "7", some (Sum.inr [elemOK])⟩ else none }

/-- Same as `envOK` except the index document carries two `data` elements
with the same `type` attribute. -/
def envDup : Env :=
  { envOK with
    untangleIndex := fun b =>
      if b = [9] then some ⟨some "7", some (Sum.inr [elemOK, elemB])⟩ else none }

/-- Environment for the label-stripping scenario: the manifest lives at
`logging.gz`, with digests `L1` (compressed) and `L2` (decompressed). -/
def envLog : Env :=
  { sha256 := fun b => if b = [1, 2] then "L1" else if b = [3, 4] then "L2" else "X"
    httpGet := fun p => if p = "u/logging.gz" then ⟨200, [1, 2]⟩ else ⟨404, []⟩
    gunzip := fun b => if b = [1, 2] then some [3, 4] else none
    untangleIndex := fun _ => none
    untangleManifest := fun b => if b = [3, 4] then some [] else none
    datestamp := "T" }

/-- The descriptor naming `logging.gz`. -/
def descLog : ManifestDescriptor :=
  ⟨"kernel", "L1", "L2", "logging.gz", 100, 10, 20⟩

/-- The concrete repository object (base URL `u`). -/
def repoOK : Repository := Repository.init "u" false

/-- Trace of the index stage against `envOK`. -/
def trOK : List Event := [Event.httpGet "u/repodata/repomd.xml", Event.untangleCall]

/-- Trace of the manifest stage against `envOK`. -/
def tr₁OK : List Event :=
  [Event.httpGet "u/kernel.xml.gz", Event.verifyChecksum "C1" "kernel.xml.gz",
   Event.gunzipCall, Event.verifyChecksum "C2" "kernel.xml", Event.untangleCall]

/-- The manifest table parsed from the manifest served by `envOK`. -/
def tblOK : ManifestTable := [("5.4.0-generic", modOK)]

/-! ### Infrastructure lemmas -/

@[simp]
theorem bind'_assoc {α β γ : Type} (x : M α) (f : α → M β) (g : β → M γ) :
    (x.bind' f).bind' g = x.bind' (fun a => (f a).bind' g) := by
  funext fs
  rcases hx : x fs with ⟨r, fs₁, tr⟩
  rcases r with e | a
  · simp [M.bind', hx]
  · rcases hf : f a fs₁ with ⟨rf, fs₂, tr₂⟩
    rcases rf with e₂ | b
    · simp [M.bind', hx, hf]
    · simp [M.bind', hx, hf]

@[simp]
theorem bind'_pure' {α β : Type} (a : α) (f : α → M β) : (M.pure' a).bind' f = f a := by
  funext fs
  simp [M.bind', M.pure']

@[simp]
theorem bind'_throwM {α β : Type} (e : PyErr) (f : α → M β) :
    (throwM e : M α).bind' f = (throwM e : M β) := by
  funext fs
  simp [M.bind', throwM]

@[simp]
theorem bind'_emit {β : Type} (ev : Event) (f : Unit → M β) (fs : FS) :
    ((emit ev).bind' f) fs = ((f () fs).1, (f () fs).2.1, ev :: (f () fs).2.2) := by
  simp [M.bind', emit]

@[simp]
theorem bind'_httpGetM {β : Type} (env : Env) (p : String) (f : HTTPResponse → M β) (fs : FS) :
    ((httpGetM env p).bind' f) fs =
      ((f (env.httpGet p) fs).1, (f (env.httpGet p) fs).2.1,
       Event.httpGet p :: (f (env.httpGet p) fs).2.2) := by
  simp [M.bind', httpGetM]

@[simp]
theorem bind'_writeFileM {β : Type} (n : String) (b : Bytes) (f : Unit → M β) (fs : FS) :
    ((writeFileM n b).bind' f) fs =
      ((f () ⟨dictSet fs.files n b⟩).1, (f () ⟨dictSet fs.files n b⟩).2.1,
       Event.fileWrite n :: (f () ⟨dictSet fs.files n b⟩).2.2) := by
  simp [M.bind', writeFileM]

@[simp]
theorem bind'_readFileM {β : Type} (n : String) (f : Bytes → M β) (fs : FS) :
    ((readFileM n).bind' f) fs =
      match dictGet? fs.files n with
      | some b => ((f b fs).1, (f b fs).2.1, Event.fileRead n :: (f b fs).2.2)
      | none => (Except.error PyErr.ioError, fs, [Event.fileRead n]) := by
  rcases h : dictGet? fs.files n with _ | b <;> simp [M.bind', readFileM, h]

@[simp]
theorem throwM_run {α : Type} (e : PyErr) (fs : FS) :
    (throwM e : M α) fs = (Except.error e, fs, []) := rfl

@[simp]
theorem pure'_run {α : Type} (a : α) (fs : FS) :
    (M.pure' a) fs = (Except.ok a, fs, []) := rfl

theorem bind'_ok {α β : Type} {x : M α} {fs fs₁ : FS} {a : α} {tr : List Event}
    (f : α → M β) (h : x fs = (Except.ok a, fs₁, tr)) :
    (x.bind' f) fs = ((f a fs₁).1, (f a fs₁).2.1, tr ++ (f a fs₁).2.2) := by
  simp [M.bind', h]

theorem bind'_err {α β : Type} {x : M α} {fs fs₁ : FS} {e : PyErr} {tr : List Event}
    (f : α → M β) (h : x fs = (Except.error e, fs₁, tr)) :
    (x.bind' f) fs = (Except.error e, fs₁, tr) := by
  simp [M.bind', h]

@[simp]
theorem dictGet?_dictSet_self {α : Type} (d : List (String × α)) (k : String) (v : α) :
    dictGet? (dictSet d k v) k = some v := by
  induction d with
  | nil => simp [dictSet, dictGet?]
  | cons p rest ih =>
      rcases p with ⟨k', v'⟩
      by_cases h : k' = k
      · simp [dictSet, dictGet?, h]
      · simp [dictSet, dictGet?, h, ih]

theorem precedes_of_not_mem {a b : Event} {tr : List Event} (h : b ∉ tr) :
    precedes a b tr :=
  fun _ hn => absurd (List.getElem?_mem hn) h

theorem precedes_append_cons {a b : Event} {l₁ l₂ : List Event}
    (hab : b ≠ a) (hl : b ∉ l₁) : precedes a b (l₁ ++ a :: l₂) := by
  intro n hn
  rcases lt_trichotomy n l₁.length with hlt | heq | hgt
  · rw [List.getElem?_append_left hlt] at hn
    exact absurd (List.getElem?_mem hn) hl
  · rw [heq, List.getElem?_append_right (le_refl _), Nat.sub_self,
      List.getElem?_cons_zero] at hn
    exact absurd (Option.some.inj hn).symm hab
  · refine ⟨l₁.length, hgt, ?_⟩
    rw [List.getElem?_append_right (le_refl _), Nat.sub_self, List.getElem?_cons_zero]

/-- Full characterization of `get_manifest`: the result, filesystem and
trace in every branch. -/
theorem get_manifest_run (repo : Repository) (env : Env) (md : ManifestDescriptor) (fs : FS) :
    get_manifest repo env md fs =
      (let path := repo.url ++ "/" ++ md.location
       let req := env.httpGet path
       if req.status = 200 then
         if env.sha256 req.content = md.checksum then
           match env.gunzip req.content with
           | some doc =>
               if env.sha256 doc = md.open_checksum then
                 (Except.ok (parse_manifest_table env doc), fs,
                  [Event.httpGet path,
                   Event.verifyChecksum md.checksum md.location,
                   Event.gunzipCall,
                   Event.verifyChecksum md.open_checksum (pyRstrip md.location ".gz"),
                   Event.untangleCall])
               else
                 (Except.error (PyErr.repositoryError
                     (repo.url ++ "/" ++ pyRstrip md.location ".gz")
                     ("checksum verification failed, expected " ++ md.open_checksum ++
                      " got " ++ env.sha256 doc)), fs,
                  [Event.httpGet path,
                   Event.verifyChecksum md.checksum md.location,
                   Event.gunzipCall,
                   Event.verifyChecksum md.open_checksum (pyRstrip md.location ".gz")])
           | none =>
               (Except.error PyErr.ioError, fs,
                [Event.httpGet path,
                 Event.verifyChecksum md.checksum md.location,
                 Event.gunzipCall])
         else
           (Except.error (PyErr.repositoryError (repo.url ++ "/" ++ md.location)
               ("checksum verification failed, expected " ++ md.checksum ++
                " got " ++ env.sha256 req.content)), fs,
            [Event.httpGet path,
             Event.verifyChecksum md.checksum md.location])
       else
         (Except.error (PyErr.nameError "gz_manifest"), fs, [Event.httpGet path])) := by
  by_cases h200 : (env.httpGet (repo.url ++ "/" ++ md.location)).status = 200
  · by_cases hcs : env.sha256 (env.httpGet (repo.url ++ "/" ++ md.location)).content = md.checksum
    · rcases hgz : env.gunzip (env.httpGet (repo.url ++ "/" ++ md.location)).content with _ | doc
      · simp [get_manifest, M.bind_eq, M.pure_eq, verify_checksum, unzip_manifest,
          parse_manifest, h200, hcs, hgz]
      · by_cases hocs : env.sha256 doc = md.open_checksum
        · simp [get_manifest, M.bind_eq, M.pure_eq, verify_checksum, unzip_manifest,
            parse_manifest, h200, hcs, hgz, hocs]
        · simp [get_manifest, M.bind_eq, M.pure_eq, verify_checksum, unzip_manifest,
            parse_manifest, h200, hcs, hgz, hocs]
    · simp [get_manifest, M.bind_eq, M.pure_eq, verify_checksum, unzip_manifest,
        parse_manifest, h200, hcs]
  · simp [get_manifest, M.bind_eq, M.pure_eq, verify_checksum, unzip_manifest,
      parse_manifest, h200]

/-- Full characterization of `fetch_module`: the file is written before
verification in both branches, and stays written. -/
theorem fetch_module_run (repo : Repository) (env : Env) (m : ModuleRecord) (fs : FS) :
    fetch_module repo env m fs =
      (let filename := "lime-" ++ env.datestamp ++ "-" ++ m.version ++ ".ko"
       let url := repo.url ++ "/" ++ m.location
       let content := (env.httpGet url).content
       if env.sha256 content = m.checksum then
         (Except.ok filename, ⟨dictSet fs.files filename content⟩,
          [Event.httpGet url, Event.fileWrite filename, Event.fileRead filename,
           Event.verifyChecksum m.checksum m.location])
       else
         (Except.error (PyErr.repositoryError (repo.url ++ "/" ++ m.location)
             ("checksum verification failed, expected " ++ m.checksum ++
              " got " ++ env.sha256 content)),
          ⟨dictSet fs.files filename content⟩,
          [Event.httpGet url, Event.fileWrite filename, Event.fileRead filename,
           Event.verifyChecksum m.checksum m.location])) := by
  by_cases hcs : env.sha256 (env.httpGet (repo.url ++ "/" ++ m.location)).content = m.checksum
  · simp [fetch_module, verify_module, verify_checksum, M.bind_eq, M.pure_eq, hcs]
  · simp [fetch_module, verify_module, verify_checksum, M.bind_eq, M.pure_eq, hcs]

/-- Python `rstrip` does remove exactly a trailing `.gz` suffix whenever
the remaining name does not itself end in one of the characters `.`,
`g`, `z`. -/
theorem pyRstrip_append_suffix (s : String)
    (hs : ∀ c : Char, s.data.getLast? = some c → c ∉ (".gz" : String).data) :
    pyRstrip (s ++ ".gz") ".gz" = s := by
  unfold pyRstrip
  rw [String.data_append s ".gz"]
  have hdata : (".gz" : String).data = ['.', 'g', 'z'] := rfl
  rw [hdata, List.reverse_append]
  have hstep : List.dropWhile (fun c => (['.', 'g', 'z'] : List Char).contains c)
      (['.', 'g', 'z'].reverse ++ s.data.reverse) = s.data.reverse.dropWhile
        (fun c => (['.', 'g', 'z'] : List Char).contains c) := by
    simp [List.dropWhile_cons]
  rw [hstep]
  have hdrop : s.data.reverse.dropWhile (fun c => (['.', 'g', 'z'] : List Char).contains c) =
      s.data.reverse := by
    rcases hrev : s.data.reverse with _ | ⟨c, rest⟩
    · simp
    · have hc : s.data.getLast? = some c := by
        rw [← List.head?_reverse, hrev]
        rfl
      have hnc : c ∉ (['.', 'g', 'z'] : List Char) := by
        have := hs c hc
        rwa [hdata] at this
      rw [List.dropWhile_cons]
      simp [hnc]
  rw [hdrop, List.reverse_reverse]

/-! ### The claims -/

/-- Claim C1: for every execution in which the repository index names a `kernel`
manifest descriptor with checksum `C1`, open_checksum `C2` and location
`kernel.xml.gz`, the fetched compressed manifest's SHA-256 hex digest
equals `C1`, its decompression has SHA-256 hex digest `C2` and contains a
module entry with version `5.4.0-generic`, checksum `C3` and location
`lime-5.4.0.ko`, and the fetched artifact byte stream has SHA-256 hex
digest `C3`, `Repository.fetch("5.4.0-generic", "kernel")` returns a local
file reference whose content's SHA-256 hex digest equals `C3`. -/
theorem claim_C1 (repo : Repository) (env : Env) (fs : FS) (md : Metadata)
    (desc : ManifestDescriptor) (tr₀ : List Event) (m : ModuleRecord)
    (c1 c2 c3 : String) (gz doc : Bytes)
    (h₁ : get_metadata repo env fs = (Except.ok md, fs, tr₀))
    (h₂ : dictGet? md.manifests "kernel" = some desc)
    (h₃ : desc.checksum = c1) (h₄ : desc.open_checksum = c2)
    (h₅ : desc.location = "kernel.xml.gz")
    (h₆ : env.httpGet (repo.url ++ "/" ++ "kernel.xml.gz") = ⟨200, gz⟩)
    (h₇ : env.sha256 gz = c1)
    (h₈ : env.gunzip gz = some doc)
    (h₉ : env.sha256 doc = c2)
    (h₁₀ : dictGet? (parse_manifest_table env doc) "5.4.0-generic" = some m)
    (h₁₁ : m.version = "5.4.0-generic") (h₁₂ : m.checksum = c3)
    (h₁₃ : m.location = "lime-5.4.0.ko")
    (h₁₄ : env.sha256 ((env.httpGet (repo.url ++ "/" ++ "lime-5.4.0.ko")).content) = c3) :
    ∃ (fs' : FS) (tr : List Event) (content : Bytes),
      fetch repo env "5.4.0-generic" "kernel" fs =
        (Except.ok ("lime-" ++ env.datestamp ++ "-" ++ "5.4.0-generic" ++ ".ko"), fs', tr) ∧
      dictGet? fs'.files ("lime-" ++ env.datestamp ++ "-" ++ "5.4.0-generic" ++ ".ko") =
        some content ∧
      env.sha256 content = c3 := by
  have hgm : get_manifest repo env desc fs =
      (Except.ok (parse_manifest_table env doc), fs,
       [Event.httpGet (repo.url ++ "/" ++ desc.location),
        Event.verifyChecksum desc.checksum desc.location,
        Event.gunzipCall,
        Event.verifyChecksum desc.open_checksum (pyRstrip desc.location ".gz"),
        Event.untangleCall]) := by
    rw [get_manifest_run]
    simp [h₃, h₄, h₅, h₆, h₇, h₈, h₉]
  have hfm : fetch_module repo env m fs =
      (Except.ok ("lime-" ++ env.datestamp ++ "-" ++ m.version ++ ".ko"),
       ⟨dictSet fs.files ("lime-" ++ env.datestamp ++ "-" ++ m.version ++ ".ko")
          ((env.httpGet (repo.url ++ "/" ++ m.location)).content)⟩,
       [Event.httpGet (repo.url ++ "/" ++ m.location),
        Event.fileWrite ("lime-" ++ env.datestamp ++ "-" ++ m.version ++ ".ko"),
        Event.fileRead ("lime-" ++ env.datestamp ++ "-" ++ m.version ++ ".ko"),
        Event.verifyChecksum m.checksum m.location]) := by
    rw [fetch_module_run]
    simp [h₁₂, h₁₃, h₁₄]
  have hfetch : fetch repo env "5.4.0-generic" "kernel" fs =
      (Except.ok ("lime-" ++ env.datestamp ++ "-" ++ m.version ++ ".ko"),
       ⟨dictSet fs.files ("lime-" ++ env.datestamp ++ "-" ++ m.version ++ ".ko")
          ((env.httpGet (repo.url ++ "/" ++ m.location)).content)⟩,
       tr₀ ++
        ([Event.httpGet (repo.url ++ "/" ++ desc.location),
          Event.verifyChecksum desc.checksum desc.location,
          Event.gunzipCall,
          Event.verifyChecksum desc.open_checksum (pyRstrip desc.location ".gz"),
          Event.untangleCall] ++
         [Event.httpGet (repo.url ++ "/" ++ m.location),
          Event.fileWrite ("lime-" ++ env.datestamp ++ "-" ++ m.version ++ ".ko"),
          Event.fileRead ("lime-" ++ env.datestamp ++ "-" ++ m.version ++ ".ko"),
          Event.verifyChecksum m.checksum m.location])) := by
    simp only [fetch, M.bind_eq, M.pure_eq]
    rw [bind'_ok _ h₁]
    simp only [h₂, bind'_pure']
    rw [bind'_ok _ hgm]
    simp only [h₁₀, bind'_pure']
    rw [hfm]
  rw [h₁₁, h₁₃] at hfetch
  exact ⟨_, _, (env.httpGet (repo.url ++ "/" ++ "lime-5.4.0.ko")).content, hfetch,
    dictGet?_dictSet_self _ _ _, h₁₄⟩

/-- Witness for C1: the end-to-end scenario run against the concrete
environment `envOK`. -/
theorem claim_C1_witness :
    ∃ (fs' : FS) (tr : List Event) (content : Bytes),
      fetch repoOK envOK "5.4.0-generic" "kernel" ⟨[]⟩ =
        (Except.ok ("lime-" ++ envOK.datestamp ++ "-" ++ "5.4.0-generic" ++ ".ko"), fs', tr) ∧
      dictGet? fs'.files ("lime-" ++ envOK.datestamp ++ "-" ++ "5.4.0-generic" ++ ".ko") =
        some content ∧
      envOK.sha256 content = "C3" :=
  claim_C1 repoOK envOK ⟨[]⟩ mdOK descOK trOK modOK "C1" "C2" "C3" [1, 2] [3, 4]
    (by decide) (by decide) (by decide) (by decide) (by decide) (by decide) (by decide)
    (by decide) (by decide) (by decide) (by decide) (by decide) (by decide) (by decide)

/-- Claim C2: for every byte string `data` and every string `expected`, checksum
verification fails with an error carrying the label, the expected value
and the computed digest if and only if the SHA-256 hex digest of `data`
does not case-sensitively equal `expected`; when they are equal it
returns with no effect other than the debug log of the computed digest. -/
theorem claim_C2 (repo : Repository) (env : Env) (data : Bytes) (expected label : String) (fs : FS) :
    ((∃ e, (verify_checksum repo env data expected label fs).1 = Except.error e) ↔
      env.sha256 data ≠ expected) ∧
    verify_checksum repo env data expected label fs =
      (if env.sha256 data = expected
       then (Except.ok (), fs, [Event.verifyChecksum expected label])
       else (Except.error (PyErr.repositoryError (repo.url ++ "/" ++ label)
               ("checksum verification failed, expected " ++ expected ++ " got " ++
                env.sha256 data)),
             fs, [Event.verifyChecksum expected label])) := by
  by_cases h : env.sha256 data = expected
  · constructor
    · simp [verify_checksum, M.bind_eq, M.pure_eq, h]
    · simp [verify_checksum, M.bind_eq, M.pure_eq, h]
  · constructor
    · simp [verify_checksum, M.bind_eq, M.pure_eq, h]
    · simp [verify_checksum, M.bind_eq, M.pure_eq, h]

/-- Claim C3: for every manifest descriptor, the compressed payload's checksum
is verified before decompression, and the decompressed payload's checksum
is verified before the document is parsed; when the compressed digest
mismatches, resolution fails and the decoder is never invoked. -/
theorem claim_C3 (repo : Repository) (env : Env) (md : ManifestDescriptor) (fs : FS) :
    precedes (Event.verifyChecksum md.checksum md.location) Event.gunzipCall
      (get_manifest repo env md fs).2.2 ∧
    precedes (Event.verifyChecksum md.open_checksum (pyRstrip md.location ".gz"))
      Event.untangleCall (get_manifest repo env md fs).2.2 ∧
    ((env.httpGet (repo.url ++ "/" ++ md.location)).status = 200 →
      env.sha256 (env.httpGet (repo.url ++ "/" ++ md.location)).content ≠ md.checksum →
      (∃ e, (get_manifest repo env md fs).1 = Except.error e) ∧
        Event.gunzipCall ∉ (get_manifest repo env md fs).2.2) := by
  rw [get_manifest_run]
  by_cases h200 : (env.httpGet (repo.url ++ "/" ++ md.location)).status = 200
  · by_cases hcs : env.sha256 (env.httpGet (repo.url ++ "/" ++ md.location)).content = md.checksum
    · rcases hgz : env.gunzip (env.httpGet (repo.url ++ "/" ++ md.location)).content with _ | doc
      · simp only [h200, hcs, hgz, if_true, if_pos rfl]
        refine ⟨?_, ?_, ?_⟩
        · exact @precedes_append_cons _ _ [Event.httpGet (repo.url ++ "/" ++ md.location)]
            [Event.gunzipCall] (by simp) (by simp)
        · exact precedes_of_not_mem (by simp)
        · intro _ hne
          exact absurd rfl hne
      · by_cases hocs : env.sha256 doc = md.open_checksum
        · simp only [h200, hcs, hgz, hocs, if_true, if_pos rfl]
          refine ⟨?_, ?_, ?_⟩
          · exact @precedes_append_cons _ _ [Event.httpGet (repo.url ++ "/" ++ md.location)]
              [Event.gunzipCall,
               Event.verifyChecksum md.open_checksum (pyRstrip md.location ".gz"),
               Event.untangleCall] (by simp) (by simp)
          · exact @precedes_append_cons _ _
              [Event.httpGet (repo.url ++ "/" ++ md.location),
               Event.verifyChecksum md.checksum md.location,
               Event.gunzipCall]
              [Event.untangleCall] (by simp) (by simp)
          · intro _ hne
            exact absurd rfl hne
        · simp only [h200, hcs, hgz, hocs, if_true, if_pos rfl, if_neg hocs]
          refine ⟨?_, ?_, ?_⟩
          · exact @precedes_append_cons _ _ [Event.httpGet (repo.url ++ "/" ++ md.location)]
              [Event.gunzipCall,
               Event.verifyChecksum md.open_checksum (pyRstrip md.location ".gz")]
              (by simp) (by simp)
          · exact precedes_of_not_mem (by simp)
          · intro _ hne
            exact absurd rfl hne
    · simp only [h200, hcs, if_pos rfl, if_neg hcs]
      refine ⟨?_, ?_, ?_⟩
      · exact precedes_of_not_mem (by simp)
      · exact precedes_of_not_mem (by simp)
      · intro _ _
        exact ⟨⟨_, rfl⟩, by simp⟩
  · simp only [h200, if_neg h200]
    refine ⟨precedes_of_not_mem (by simp), precedes_of_not_mem (by simp), ?_⟩
    intro h200' _
    exact h200'.elim

/-- Witness for C3: against `envOK` and the descriptor `mdBadCS`, whose
compressed checksum mismatches the served payload, manifest resolution
fails and the decoder is never invoked. -/
theorem claim_C3_witness :
    (∃ e, (get_manifest repoOK envOK mdBadCS ⟨[]⟩).1 = Except.error e) ∧
      Event.gunzipCall ∉ (get_manifest repoOK envOK mdBadCS ⟨[]⟩).2.2 :=
  (claim_C3 repoOK envOK mdBadCS ⟨[]⟩).2.2 (by decide) (by decide)

/-- Counterexample for C4: requesting the absent manifest type `foo` from the
concrete index makes `fetch` fail with the bare dict-lookup `KeyError`,
not with a `ManifestTypeNotFoundError`. -/
theorem claim_C4_counterexample :
    (fetch repoOK envOK "5.4.0-generic" "foo" ⟨[]⟩).1 = Except.error (PyErr.keyError "foo") ∧
    (fetch repoOK envOK "5.4.0-generic" "foo" ⟨[]⟩).1 ≠
      Except.error (PyErr.manifestTypeNotFound "foo") := by
  constructor
  · decide
  · decide

/-- Claim C4 as amended: for every manifest type absent from the parsed index's
manifests mapping, `fetch` fails with the uncaught Python `KeyError`
carrying the manifest type, and the failure occurs before any manifest
network fetch (the trace is exactly the index-stage trace). -/
theorem claim_C4_amended (repo : Repository) (env : Env) (fs : FS)
    (kernel_version manifest_type : String) (md : Metadata) (tr₀ : List Event)
    (h₁ : get_metadata repo env fs = (Except.ok md, fs, tr₀))
    (h₂ : dictGet? md.manifests manifest_type = none) :
    fetch repo env kernel_version manifest_type fs =
      (Except.error (PyErr.keyError manifest_type), fs, tr₀) := by
  simp only [fetch, M.bind_eq, M.pure_eq]
  rw [bind'_ok _ h₁]
  simp [h₂]

/-- Witness for C4: the amended claim at the concrete index, which lacks a
`foo` manifest type. -/
theorem claim_C4_witness :
    fetch repoOK envOK "5.4.0-generic" "foo" ⟨[]⟩ =
      (Except.error (PyErr.keyError "foo"), ⟨[]⟩, trOK) :=
  claim_C4_amended repoOK envOK ⟨[]⟩ "5.4.0-generic" "foo" mdOK trOK
    (by decide) (by decide)

/-- Claim C5: for every resolved manifest table, looking up a present kernel
version passes exactly the matching record to the artifact fetch, and
looking up an absent version raises `KernelModuleNotFoundError` naming
that version and the repository base URL. -/
theorem claim_C5 (repo : Repository) (env : Env) (fs : FS)
    (kernel_version manifest_type : String) (md : Metadata)
    (desc : ManifestDescriptor) (tbl : ManifestTable) (tr₀ tr₁ : List Event) (m : ModuleRecord)
    (h₁ : get_metadata repo env fs = (Except.ok md, fs, tr₀))
    (h₂ : dictGet? md.manifests manifest_type = some desc)
    (h₃ : get_manifest repo env desc fs = (Except.ok tbl, fs, tr₁)) :
    (dictGet? tbl kernel_version = some m →
      fetch repo env kernel_version manifest_type fs =
        ((fetch_module repo env m fs).1, (fetch_module repo env m fs).2.1,
         tr₀ ++ tr₁ ++ (fetch_module repo env m fs).2.2)) ∧
    (dictGet? tbl kernel_version = none →
      fetch repo env kernel_version manifest_type fs =
        (Except.error (PyErr.kernelModuleNotFound kernel_version repo.url), fs, tr₀ ++ tr₁)) := by
  constructor
  · intro hm
    simp only [fetch, M.bind_eq, M.pure_eq]
    rw [bind'_ok _ h₁]
    simp only [h₂, bind'_pure']
    rw [bind'_ok _ h₃]
    simp [hm, List.append_assoc]
  · intro hm
    simp only [fetch, M.bind_eq, M.pure_eq]
    rw [bind'_ok _ h₁]
    simp only [h₂, bind'_pure']
    rw [bind'_ok _ h₃]
    simp [hm, List.append_assoc]

/-- Witness for C5: against `envOK`, the present version `5.4.0-generic` is
handed to the artifact fetch, and the absent version `nope` raises
`KernelModuleNotFoundError` naming the version and the base URL. -/
theorem claim_C5_witness :
    (fetch repoOK envOK "5.4.0-generic" "kernel" ⟨[]⟩ =
      ((fetch_module repoOK envOK modOK ⟨[]⟩).1, (fetch_module repoOK envOK modOK ⟨[]⟩).2.1,
       trOK ++ tr₁OK ++ (fetch_module repoOK envOK modOK ⟨[]⟩).2.2)) ∧
    (fetch repoOK envOK "nope" "kernel" ⟨[]⟩ =
      (Except.error (PyErr.kernelModuleNotFound "nope" "u"), ⟨[]⟩, trOK ++ tr₁OK)) :=
  ⟨(claim_C5 repoOK envOK ⟨[]⟩ "5.4.0-generic" "kernel" mdOK descOK tblOK trOK tr₁OK modOK
      (by decide) (by decide) (by decide)).1 (by decide),
   (claim_C5 repoOK envOK ⟨[]⟩ "nope" "kernel" mdOK descOK tblOK trOK tr₁OK modOK
      (by decide) (by decide) (by decide)).2 (by decide)⟩

/-- Claim C6: when the HTTP GET of the manifest location returns a non-success
status, the source's `if` has no `else` branch, so `get_manifest` fails by
referencing the never-assigned local `gz_manifest` (`UnboundLocalError`),
not with a transport error carrying the path and status: the error carries
neither. -/
theorem claim_C6 (repo : Repository) (env : Env) (md : ManifestDescriptor) (fs : FS)
    (h : (env.httpGet (repo.url ++ "/" ++ md.location)).status ≠ 200) :
    get_manifest repo env md fs =
      (Except.error (PyErr.nameError "gz_manifest"), fs,
       [Event.httpGet (repo.url ++ "/" ++ md.location)]) ∧
    (∀ (path msg : String),
      (get_manifest repo env md fs).1 ≠ Except.error (PyErr.repositoryError path msg)) := by
  rw [get_manifest_run]
  simp [h]

/-- Witness for C6: the concrete environment answers `u/missing.xml.gz` with
status 404, and `get_manifest` fails with the unbound-local error. -/
theorem claim_C6_witness :
    get_manifest repoOK envOK mdMissing ⟨[]⟩ =
      (Except.error (PyErr.nameError "gz_manifest"), ⟨[]⟩,
       [Event.httpGet "u/missing.xml.gz"]) :=
  (claim_C6 repoOK envOK mdMissing ⟨[]⟩ (by decide)).1

/-- Claim C7: `parse_manifest` never surfaces an error to its caller: its
`except` branch prints the exception and falls through, so a malformed
manifest document yields an empty table, and a module entry whose field
extraction raises yields the partial table built so far, with `Except.ok`
in every case — contradicting the claim that a `MetadataParseError`
wrapping the structural cause reaches the caller of `fetch`. -/
theorem claim_C7 (repo : Repository) (env : Env) (manifest_xml : Bytes) (fs : FS) :
    (∃ tbl, parse_manifest repo env manifest_xml fs =
      (Except.ok tbl, fs, [Event.untangleCall])) ∧
    (env.untangleManifest manifest_xml = none →
      parse_manifest repo env manifest_xml fs = (Except.ok [], fs, [Event.untangleCall])) ∧
    (∀ (mod : ModuleElem) (exc : PyExc),
      env.untangleManifest manifest_xml = some [mod] →
      parseModuleElem mod = Except.error exc →
      parse_manifest repo env manifest_xml fs = (Except.ok [], fs, [Event.untangleCall])) := by
  refine ⟨⟨parse_manifest_table env manifest_xml, ?_⟩, ?_, ?_⟩
  · simp [parse_manifest, M.bind_eq, M.pure_eq]
  · intro h
    simp [parse_manifest, M.bind_eq, M.pure_eq, parse_manifest_table, h]
  · intro mod exc h₁ h₂
    simp [parse_manifest, M.bind_eq, M.pure_eq, parse_manifest_table, h₁, modulesLoop, h₂]

/-- Witness for C7: a byte string the XML library rejects is parsed to the
empty table with an `ok` result. -/
theorem claim_C7_witness :
    parse_manifest repoOK envOK [99] ⟨[]⟩ = (Except.ok [], ⟨[]⟩, [Event.untangleCall]) :=
  (claim_C7 repoOK envOK [99] ⟨[]⟩).2.1 (by decide)

/-- Claim C8: `parse_metadata` yields the same result whether the index document
carries a single `data` element or the same element wrapped in a
one-element list, and when two `data` elements share a `type` attribute
the later one overwrites the earlier entry. -/
theorem claim_C8 (repo : Repository) (env env' : Env) (xml xml' : Bytes) (fs : FS)
    (r : String) (e e₁ e₂ : DataElem) (t : String) (d₁ d₂ : ManifestDescriptor) :
    (env.untangleIndex xml = some ⟨some r, some (Sum.inl e)⟩ →
     env'.untangleIndex xml' = some ⟨some r, some (Sum.inr [e])⟩ →
     parse_metadata repo env xml fs = parse_metadata repo env' xml' fs) ∧
    (env.untangleIndex xml = some ⟨some r, some (Sum.inr [e₁, e₂])⟩ →
     parseDataElem e₁ = Except.ok (t, d₁) →
     parseDataElem e₂ = Except.ok (t, d₂) →
     ∃ (md : Metadata) (tr : List Event),
       parse_metadata repo env xml fs = (Except.ok md, fs, tr) ∧
       dictGet? md.manifests t = some d₂) := by
  constructor
  · intro h h'
    simp only [parse_metadata, parse_metadata_inner, h, h', parse_index_doc, pyAttr]
    rfl
  · intro h h₁ h₂
    have hloop : manifestsLoop [e₁, e₂] [] =
        Except.ok (dictSet (dictSet [] t d₁) t d₂) := by
      simp only [manifestsLoop, h₁, h₂]
      rfl
    have hinner : parse_metadata_inner env xml =
        Except.ok ⟨r, dictSet (dictSet [] t d₁) t d₂⟩ := by
      simp only [parse_metadata_inner, h]
      rw [show parse_index_doc ⟨some r, some (Sum.inr [e₁, e₂])⟩ =
          (manifestsLoop [e₁, e₂] [] >>= fun ms =>
            Except.ok { revision := r, manifests := ms }) from rfl, hloop]
      rfl
    have heq : parse_metadata repo env xml fs =
        (Except.ok ⟨r, dictSet (dictSet [] t d₁) t d₂⟩, fs, [Event.untangleCall]) := by
      simp [parse_metadata, M.bind_eq, M.pure_eq, hinner]
    exact ⟨_, _, heq, dictGet?_dictSet_self _ _ _⟩

/-- Witness for C8: the concrete single-element and wrapped-list index
documents parse identically, and the duplicate-type index resolves
`kernel` to the later descriptor. -/
theorem claim_C8_witness :
    (parse_metadata repoOK envOK [9] ⟨[]⟩ = parse_metadata repoOK envListOK [9] ⟨[]⟩) ∧
    (∃ (md : Metadata) (tr : List Event),
      parse_metadata repoOK envDup [9] ⟨[]⟩ = (Except.ok md, ⟨[]⟩, tr) ∧
      dictGet? md.manifests "kernel" = some descB) :=
  ⟨(claim_C8 repoOK envOK envListOK [9] [9] ⟨[]⟩ "7" elemOK elemOK elemB "kernel"
      descOK descB).1 (by decide) (by decide),
   (claim_C8 repoOK envDup envListOK [9] [9] ⟨[]⟩ "7" elemOK elemOK elemB "kernel"
      descOK descB).2 (by decide) (by decide) (by decide)⟩

/-- Counterexample for C9: for the descriptor at `logging.gz`, the label
passed to the decompressed-payload verification is `loggin` — Python's
`rstrip('.gz')` removes the trailing character set, not the suffix — so it
is not the location with exactly the `.gz` suffix stripped. -/
theorem claim_C9_counterexample :
    (get_manifest repoOK envLog descLog ⟨[]⟩).2.2[3]? =
      some (Event.verifyChecksum "L2" "loggin") ∧
    Event.verifyChecksum "L2" "logging" ∉ (get_manifest repoOK envLog descLog ⟨[]⟩).2.2 ∧
    descLog.location = "logging" ++ ".gz" := by
  refine ⟨?_, ?_, ?_⟩
  · decide
  · decide
  · decide

/-- Claim C9 as amended: the label passed to the decompressed-payload checksum
verification is `descriptor.location` with all trailing characters drawn
from the set `.`, `g`, `z` removed (Python `rstrip` semantics); this
coincides with stripping exactly the `.gz` suffix whenever the remaining
name does not itself end in `.`, `g`, or `z`. -/
theorem claim_C9_amended (repo : Repository) (env : Env) (md : ManifestDescriptor) (fs : FS)
    (doc : Bytes)
    (h200 : (env.httpGet (repo.url ++ "/" ++ md.location)).status = 200)
    (hcs : env.sha256 (env.httpGet (repo.url ++ "/" ++ md.location)).content = md.checksum)
    (hgz : env.gunzip (env.httpGet (repo.url ++ "/" ++ md.location)).content = some doc) :
    (get_manifest repo env md fs).2.2[3]? =
      some (Event.verifyChecksum md.open_checksum (pyRstrip md.location ".gz")) ∧
    (∀ s : String, md.location = s ++ ".gz" →
      (∀ c : Char, s.data.getLast? = some c → c ∉ (".gz" : String).data) →
      pyRstrip md.location ".gz" = s) := by
  constructor
  · rw [get_manifest_run]
    by_cases hocs : env.sha256 doc = md.open_checksum
    · simp [h200, hcs, hgz, hocs]
    · simp [h200, hcs, hgz, hocs]
  · intro s hloc hlast
    rw [hloc]
    exact pyRstrip_append_suffix s hlast

/-- Witness for C9: against `envOK` and the descriptor at `kernel.xml.gz`, the
fourth trace event is the decompressed verification with label
`kernel.xml`. -/
theorem claim_C9_witness :
    (get_manifest repoOK envOK descOK ⟨[]⟩).2.2[3]? =
      some (Event.verifyChecksum "C2" (pyRstrip "kernel.xml.gz" ".gz")) :=
  (claim_C9_amended repoOK envOK descOK ⟨[]⟩ [3, 4] (by decide) (by decide) (by decide)).1

/-- Claim C10: when the checksum verification of the downloaded artifact fails,
the destination file has already been fully written before verification
runs (the write event precedes the verify event in the trace) and it
remains in the filesystem with the unverified content after the error. -/
theorem claim_C10 (repo : Repository) (env : Env) (m : ModuleRecord) (fs : FS)
    (h : env.sha256 ((env.httpGet (repo.url ++ "/" ++ m.location)).content) ≠ m.checksum) :
    fetch_module repo env m fs =
      (Except.error (PyErr.repositoryError (repo.url ++ "/" ++ m.location)
         ("checksum verification failed, expected " ++ m.checksum ++ " got " ++
          env.sha256 ((env.httpGet (repo.url ++ "/" ++ m.location)).content))),
       ⟨dictSet fs.files ("lime-" ++ env.datestamp ++ "-" ++ m.version ++ ".ko")
          ((env.httpGet (repo.url ++ "/" ++ m.location)).content)⟩,
       [Event.httpGet (repo.url ++ "/" ++ m.location),
        Event.fileWrite ("lime-" ++ env.datestamp ++ "-" ++ m.version ++ ".ko"),
        Event.fileRead ("lime-" ++ env.datestamp ++ "-" ++ m.version ++ ".ko"),
        Event.verifyChecksum m.checksum m.location]) ∧
    dictGet? (dictSet fs.files ("lime-" ++ env.datestamp ++ "-" ++ m.version ++ ".ko")
        ((env.httpGet (repo.url ++ "/" ++ m.location)).content))
      ("lime-" ++ env.datestamp ++ "-" ++ m.version ++ ".ko") =
      some ((env.httpGet (repo.url ++ "/" ++ m.location)).content) := by
  refine ⟨?_, dictGet?_dictSet_self _ _ _⟩
  rw [fetch_module_run]
  simp [h]

/-- Witness for C10: downloading `modBad` (declared checksum `WRONG`) against
`envOK` fails verification, and the file persists with the artifact
bytes. -/
theorem claim_C10_witness :
    fetch_module repoOK envOK modBad ⟨[]⟩ =
      (Except.error (PyErr.repositoryError "u/lime-5.4.0.ko"
         ("checksum verification failed, expected " ++ "WRONG" ++ " got " ++ "C3")),
       ⟨dictSet [] ("lime-" ++ "T" ++ "-" ++ "5.4.0-generic" ++ ".ko") [5, 6]⟩,
       [Event.httpGet "u/lime-5.4.0.ko",
        Event.fileWrite ("lime-" ++ "T" ++ "-" ++ "5.4.0-generic" ++ ".ko"),
        Event.fileRead ("lime-" ++ "T" ++ "-" ++ "5.4.0-generic" ++ ".ko"),
        Event.verifyChecksum "WRONG" "lime-5.4.0.ko"]) ∧
    dictGet? (dictSet [] ("lime-" ++ "T" ++ "-" ++ "5.4.0-generic" ++ ".ko") [5, 6])
      ("lime-" ++ "T" ++ "-" ++ "5.4.0-generic" ++ ".ko") = some [5, 6] :=
  claim_C10 repoOK envOK modBad ⟨[]⟩ (by decide)

end Margarita
